import Mathlib

/-!
Shallow embedding of `src/margin_trader/broker/sim_broker.py` (classes
`SimBroker`, `PositionManager`, `Position`) together with the parts of the
event model (`OrderEvent`, `FillEvent`) that the broker constructs.

Modelling conventions:
* Python floats are modelled as exact rationals (`Rat`); none of the
  verified properties depends on floating-point rounding.
* Python dicts (`PositionManager.positions`) are modelled as
  insertion-ordered association lists with unique keys, matching the
  insertion-order semantics of Python dicts.
* Methods that can raise are modelled with `Option`/a success flag:
  `PositionManager.update_pnl` returns `none` where Python raises
  `KeyError`; `SimBroker.update_balance` returns `false` where Python
  raises `IndexError` on `history[-1]` of an empty history; and
  `SimBroker.update_account_from_price` returns `false` because
  line 115 of the source calls `self.p_manager.get_totat_pnl()`, a
  misspelling of `get_total_pnl`, which raises `AttributeError` in every
  call.  In each case the returned state is the state the Python object
  holds when the exception propagates (mutations made before the raise
  are kept, later statements never run).
* The data handler collaborator is passed explicitly as a `DataHandler`
  value providing `current_datetime` and `get_latest_close_price`.
-/

namespace MarginTrader

/-- `margin_trader.event.OrderEvent`: symbol, order type, units, side and
status (`""` at creation, per the event tests). -/
structure OrderEvent where
  symbol : String
  order_type : String
  units : Rat
  side : String
  status : String
deriving DecidableEq

/-- `margin_trader.event.FillEvent`: the record `SimBroker.execute_order`
constructs (timeindex, symbol, units, side, fill price, commission).
The timeindex is modelled as a natural number. -/
structure FillEvent where
  timeindex : Nat
  symbol : String
  units : Rat
  side : String
  fill_price : Rat
  commission : Rat
deriving DecidableEq

/-- `sim_broker.Position`: one holding in a single symbol.  `cost` is the
private `__cost` set at construction; `close_time` is `none` until
`update_close_time` runs (the Python attribute does not exist before). -/
structure Position where
  symbol : String
  units : Rat
  fill_price : Rat
  last_price : Rat
  commission : Rat
  side : String
  open_time : Nat
  close_time : Option Nat
  pnl : Rat
  cost : Rat
deriving DecidableEq

/-- `Position.__init__`: `last_price` starts at the fill price, `pnl` at 0,
`__cost = fill_price * units`. -/
def Position.init (timeindex : Nat) (symbol : String) (units : Rat)
    (fill_price : Rat) (commission : Rat) (side : String) : Position :=
  { symbol := symbol
    units := units
    fill_price := fill_price
    last_price := fill_price
    commission := commission
    side := side
    open_time := timeindex
    close_time := none
    pnl := 0
    cost := fill_price * units }

/-- `Position.update_pnl`: `pnl = (last_price - fill_price) * units`,
negated for a SELL side, minus the accumulated commission. -/
def Position.update_pnl (p : Position) : Position :=
  let pnl := (p.last_price - p.fill_price) * p.units
  if p.side = "BUY" then { p with pnl := pnl - p.commission }
  else { p with pnl := -1 * pnl - p.commission }

/-- `Position.update_last_price`. -/
def Position.update_last_price (p : Position) (price : Rat) : Position :=
  { p with last_price := price }

/-- `Position.update`: set the last price then recompute the pnl. -/
def Position.update (p : Position) (price : Rat) : Position :=
  (p.update_last_price price).update_pnl

/-- `Position.update_close_time`. -/
def Position.update_close_time (p : Position) (timeindex : Nat) : Position :=
  { p with close_time := some timeindex }

/-- `Position.get_cost`: returns the private `__cost`. -/
def Position.get_cost (p : Position) : Rat := p.cost

/-- Lookup in the insertion-ordered association list that models the
Python dict `PositionManager.positions`. -/
def posLookup : List (String × Position) → String → Option Position
  | [], _ => none
  | (k, v) :: rest, s => if k = s then some v else posLookup rest s

/-- Key update in the association list: overwrite in place when the key
exists, append at the end otherwise (Python dict assignment). -/
def posSet : List (String × Position) → String → Position → List (String × Position)
  | [], s, v => [(s, v)]
  | (k, w) :: rest, s, v =>
      if k = s then (k, v) :: rest else (k, w) :: posSet rest s v

/-- Key removal from the association list (Python `del`). -/
def posErase : List (String × Position) → String → List (String × Position)
  | [], _ => []
  | (k, v) :: rest, s => if k = s then rest else (k, v) :: posErase rest s

/-- `sim_broker.PositionManager`: live positions (one per symbol) plus the
ordered history of closed positions. -/
structure PositionManager where
  positions : List (String × Position)
  history : List Position
deriving DecidableEq

/-- `PositionManager.__init__`: empty mapping, empty history. -/
def PositionManager.init : PositionManager :=
  { positions := [], history := [] }

/-- `PositionManager.update_pnl`: `self.positions[symbol].update(price)`.
The subscript raises `KeyError` when the symbol has no live position;
that path is modelled by `none`. -/
def PositionManager.update_pnl (m : PositionManager) (symbol : String)
    (price : Rat) : Option PositionManager :=
  match posLookup m.positions symbol with
  | none => none
  | some p =>
      some { m with positions := posSet m.positions symbol (p.update price) }

/-- `PositionManager.__open_position`: store a fresh `Position` under the
fill's symbol. -/
def PositionManager.open_position (m : PositionManager) (e : FillEvent) :
    PositionManager :=
  { m with positions := (posSet m.positions e.symbol
      (Position.init e.timeindex e.symbol e.units e.fill_price
        e.commission e.side)) }

/-- `PositionManager.__close_position` with the live position `p` already
looked up: add the closing commission, mark to the fill price, set the
close time, append to history, delete from the live mapping.  Note the
source closes the WHOLE position whatever the fill's units or side. -/
def PositionManager.close_position (m : PositionManager) (e : FillEvent)
    (p : Position) : PositionManager :=
  let p1 : Position := { p with commission := p.commission + e.commission }
  let p2 : Position := p1.update e.fill_price
  let p3 : Position := p2.update_close_time e.timeindex
  { positions := posErase m.positions e.symbol
    history := m.history ++ [p3] }

/-- `PositionManager.update_position_from_fill`: open when the symbol has
no live position, otherwise close the existing position. -/
def PositionManager.update_position_from_fill (m : PositionManager)
    (e : FillEvent) : PositionManager :=
  match posLookup m.positions e.symbol with
  | none => m.open_position e
  | some p => m.close_position e p

/-- `PositionManager.get_total_pnl`: sum of `pnl` over live positions. -/
def PositionManager.get_total_pnl (m : PositionManager) : Rat :=
  (m.positions.map (fun sp => sp.2.pnl)).sum

/-- The event objects `SimBroker` appends to its queue. -/
inductive Event where
  | order (o : OrderEvent)
  | fill (f : FillEvent)
deriving DecidableEq

/-- The data-handler collaborator, at its interface boundary: the current
datetime and the latest close price per symbol. -/
structure DataHandler where
  current_datetime : Nat
  get_latest_close_price : String → Rat

/-- `sim_broker.SimBroker`: the account ledger, configuration, the event
queue (modelled as the list of events the broker has appended) and the
owned `PositionManager`.  `leverage` is an integer in the source, kept as
a rational here. -/
structure SimBroker where
  balance : Rat
  equity : Rat
  free_margin : Rat
  margin : Rat
  leverage : Rat
  commission : Rat
  events : List Event
  p_manager : PositionManager
deriving DecidableEq

/-- `SimBroker.__init__`: equity and free margin start at the balance,
margin at 0, with a fresh `PositionManager`. -/
def SimBroker.init (balance : Rat) (leverage : Rat) (commission : Rat) :
    SimBroker :=
  { balance := balance
    equity := balance
    free_margin := balance
    margin := 0
    leverage := leverage
    commission := commission
    events := []
    p_manager := PositionManager.init }

/-- `SimBroker.__create_order`: append an `OrderEvent` (status `""`) to the
event queue. -/
def SimBroker.create_order (b : SimBroker) (symbol : String)
    (order_type : String) (side : String) (units : Rat) : SimBroker :=
  { b with events := b.events ++ [Event.order
      { symbol := symbol, order_type := order_type, units := units,
        side := side, status := "" }] }

/-- `SimBroker.buy`. -/
def SimBroker.buy (b : SimBroker) (symbol : String) (units : Rat) :
    SimBroker :=
  b.create_order symbol "MKT" "BUY" units

/-- `SimBroker.sell`. -/
def SimBroker.sell (b : SimBroker) (symbol : String) (units : Rat) :
    SimBroker :=
  b.create_order symbol "MKT" "SELL" units

/-- `SimBroker.close`: issue the opposing order when a live position
exists; otherwise print a diagnostic and change nothing.  The boolean is
`true` exactly when the diagnostic was printed. -/
def SimBroker.close (b : SimBroker) (symbol : String) (units : Rat) :
    SimBroker × Bool :=
  match posLookup b.p_manager.positions symbol with
  | some p =>
      if p.side = "BUY" then (b.sell symbol units, false)
      else (b.buy symbol units, false)
  | none => (b, true)

/-- `SimBroker.execute_order`: convert the order into a fill at the data
handler's latest close price (the `event.type == 'ORDER'` guard always
holds for an `OrderEvent`) and append the `FillEvent` to the queue. -/
def SimBroker.execute_order (b : SimBroker) (d : DataHandler)
    (e : OrderEvent) : SimBroker :=
  { b with events := b.events ++ [Event.fill
      { timeindex := d.current_datetime, symbol := e.symbol,
        units := e.units, side := e.side,
        fill_price := d.get_latest_close_price e.symbol,
        commission := b.commission }] }

/-- `SimBroker.__update_margin_from_fill`, run AFTER the position update:
when the fill's symbol still has a live position the source subtracts that
position's cost over leverage from the margin, otherwise it adds
`units * fill_price / leverage`. -/
def SimBroker.update_margin_from_fill (b : SimBroker) (e : FillEvent) :
    SimBroker :=
  match posLookup b.p_manager.positions e.symbol with
  | some p => { b with margin := b.margin - p.get_cost / b.leverage }
  | none =>
      { b with margin := b.margin + (e.units * e.fill_price) / b.leverage }

/-- `SimBroker.__update_balance`: when the margin dropped, add the pnl of
the last history entry to the balance.  `history[-1]` on an empty history
raises `IndexError` before any mutation: that path returns the unchanged
state and `false`. -/
def SimBroker.update_balance (b : SimBroker) (prev_margin : Rat) :
    SimBroker × Bool :=
  if b.margin < prev_margin then
    match b.p_manager.history.getLast? with
    | some h => ({ b with balance := b.balance + h.pnl }, true)
    | none => (b, false)
  else (b, true)

/-- `SimBroker.update_account_from_fill`: remember the margin, apply the
fill to the position manager, update the margin, then update the balance.
The boolean is `false` when the balance step raised `IndexError`. -/
def SimBroker.update_account_from_fill (b : SimBroker) (e : FillEvent) :
    SimBroker × Bool :=
  let curr_margin := b.margin
  let b1 : SimBroker := { b with
    p_manager := b.p_manager.update_position_from_fill e }
  let b2 := b1.update_margin_from_fill e
  b2.update_balance curr_margin

/-- `SimBroker.__update_positions_from_price`: mark every live position to
the data handler's latest close price for its symbol. -/
def SimBroker.update_positions_from_price (b : SimBroker) (d : DataHandler) :
    SimBroker :=
  { b with p_manager := { b.p_manager with positions :=
      (b.p_manager.positions.map
        (fun sp => (sp.1, sp.2.update (d.get_latest_close_price sp.1)))) } }

/-- `SimBroker.update_account_from_price`: updates the positions, then
line 115 calls `self.p_manager.get_totat_pnl()` - a misspelling of
`get_total_pnl` - so every call raises `AttributeError` there;
`__update_equity` never assigns and `__update_free_margin` never runs.
The returned state is the state at the raise, the boolean is `false` for
the error. -/
def SimBroker.update_account_from_price (b : SimBroker) (d : DataHandler) :
    SimBroker × Bool :=
  (b.update_positions_from_price d, false)

/-- `SimBroker.get_used_margin`: sum of the live positions' costs over the
leverage. -/
def SimBroker.get_used_margin (b : SimBroker) : Rat :=
  ((b.p_manager.positions.map (fun sp => sp.2.get_cost)).sum) / b.leverage

/-- Per-bar market data for the deferred-execution model: open and close
price for each bar index and symbol. -/
structure BarData where
  open_price : Nat → String → Rat
  close_price : Nat → String → Rat

/-- Modelled from the spec: the `exec_bar ∈ {CURRENT, NEXT}` execution
policy, the `PENDING` status, the pending-order set and
`checkPendingOrders` are absent from
`src/margin_trader/broker/sim_broker.py` (the repository's tests set
`_exec_bar` and call `check_pending_orders`, but only the tests are under
`src/`).  This order-execution state machine follows the spec's words:
`execute_order` under `CURRENT` immediately fills at the current bar's
close price and marks the order `FILLED`; under `NEXT` it sets the order's
status to `PENDING` and holds it in the pending set instead of firing;
`check_pending_orders`, called once per new bar, fills every pending order
at the new bar's open price, clears it from the pending set and marks it
`FILLED`.  `filled` records each filled order with its fill. -/
structure SpecExecBroker where
  exec_bar : String
  commission : Rat
  pending : List OrderEvent
  filled : List (OrderEvent × FillEvent)
deriving DecidableEq

/-- Modelled from the spec: `executeOrder` at current bar `n` (see
`SpecExecBroker`). -/
def SpecExecBroker.execute_order (b : SpecExecBroker) (bars : BarData)
    (n : Nat) (o : OrderEvent) : SpecExecBroker :=
  if b.exec_bar = "NEXT" then
    { b with pending := b.pending ++ [{ o with status := "PENDING" }] }
  else
    { b with filled := b.filled ++ [({ o with status := "FILLED" },
        { timeindex := n, symbol := o.symbol, units := o.units,
          side := o.side, fill_price := bars.close_price n o.symbol,
          commission := b.commission })] }

/-- Modelled from the spec: `checkPendingOrders` run for bar `n` (see
`SpecExecBroker`). -/
def SpecExecBroker.check_pending_orders (b : SpecExecBroker)
    (bars : BarData) (n : Nat) : SpecExecBroker :=
  { b with
    pending := []
    filled := b.filled ++ b.pending.map
      (fun o => ({ o with status := "FILLED" },
        { timeindex := n, symbol := o.symbol, units := o.units,
          side := o.side, fill_price := bars.open_price n o.symbol,
          commission := b.commission })) }

/-! ### Concrete scenario used by several of the evaluations below

A fresh broker with balance 100000, leverage 1, commission 0.5, fed the
fills the broker itself would produce for: open AAPL BUY 100 at close
102.0, close it with SELL 100 at close 105.0, then open AAPL BUY 50 at
close 106.0. -/

/-- Opening fill: BUY 100 AAPL at 102.0, commission 0.5. -/
def fillOpen : FillEvent :=
  { timeindex := 0, symbol := "AAPL", units := 100, side := "BUY",
    fill_price := 102, commission := 1/2 }

/-- Closing fill: SELL 100 AAPL at 105.0, commission 0.5. -/
def fillClose : FillEvent :=
  { timeindex := 1, symbol := "AAPL", units := 100, side := "SELL",
    fill_price := 105, commission := 1/2 }

/-- Second opening fill: BUY 50 AAPL at 106.0, commission 0.5. -/
def fillOpen2 : FillEvent :=
  { timeindex := 2, symbol := "AAPL", units := 50, side := "BUY",
    fill_price := 106, commission := 1/2 }

/-- Fresh broker: balance 100000, leverage 1, commission 0.5. -/
def broker0 : SimBroker := SimBroker.init 100000 1 (1/2)

/-- State after the opening fill (the call raises `IndexError` in the
balance step, after the position and margin mutations). -/
def broker1 : SimBroker := (broker0.update_account_from_fill fillOpen).1

/-- State after the closing fill (this call returns normally). -/
def broker2 : SimBroker := (broker1.update_account_from_fill fillClose).1

/-- State after the second opening fill (this call returns normally). -/
def broker3 : SimBroker := (broker2.update_account_from_fill fillOpen2).1

/-- Data handler with the AAPL close price at 106.0. -/
def dh106 : DataHandler :=
  { current_datetime := 1, get_latest_close_price := fun _ => 106 }

/-- A `PositionManager` scenario: AAPL BUY 100 at 150.0, commission 0.5. -/
def fillB150 : FillEvent :=
  { timeindex := 0, symbol := "AAPL", units := 100, side := "BUY",
    fill_price := 150, commission := 1/2 }

/-- Same-side follow-up fill: BUY 50 AAPL at 160.0, commission 0.5. -/
def fillB160 : FillEvent :=
  { timeindex := 1, symbol := "AAPL", units := 50, side := "BUY",
    fill_price := 160, commission := 1/2 }

/-- Opposite-side smaller fill: SELL 50 AAPL at 160.0, commission 0.5. -/
def fillS160 : FillEvent :=
  { timeindex := 1, symbol := "AAPL", units := 50, side := "SELL",
    fill_price := 160, commission := 1/2 }

/-- Manager holding AAPL BUY 100 at 150.0. -/
def pmAapl : PositionManager :=
  PositionManager.init.update_position_from_fill fillB150

/-- The live AAPL position of `pmAapl`. -/
def posAapl : Position := Position.init 0 "AAPL" 100 150 (1/2) "BUY"

/-- A concrete order event used in witnesses. -/
def ordAapl : OrderEvent :=
  { symbol := "AAPL", order_type := "MKT", units := 100, side := "BUY",
    status := "" }

/-- A concrete broker for the deferred-execution model, configured with
the NEXT policy. -/
def specB : SpecExecBroker :=
  { exec_bar := "NEXT", commission := 1/2, pending := [], filled := [] }

/-- Concrete bar data: bar `n` opens at `10 n` and closes at `10 n + 5`. -/
def bars0 : BarData :=
  { open_price := fun n _ => (n : Rat) * 10
    close_price := fun n _ => (n : Rat) * 10 + 5 }

/-! ### Frame lemmas for `Position.update` -/

/-- `Position.update` does not change the symbol. -/
@[simp] theorem Position.update_symbol (p : Position) (price : Rat) :
    (p.update price).symbol = p.symbol := by
  unfold Position.update Position.update_pnl Position.update_last_price
  split <;> rfl

/-- `Position.update` does not change the units. -/
@[simp] theorem Position.update_units_eq (p : Position) (price : Rat) :
    (p.update price).units = p.units := by
  unfold Position.update Position.update_pnl Position.update_last_price
  split <;> rfl

/-- `Position.update` does not change the average fill price. -/
@[simp] theorem Position.update_fill_price_eq (p : Position) (price : Rat) :
    (p.update price).fill_price = p.fill_price := by
  unfold Position.update Position.update_pnl Position.update_last_price
  split <;> rfl

/-- `Position.update` does not change the side. -/
@[simp] theorem Position.update_side_eq (p : Position) (price : Rat) :
    (p.update price).side = p.side := by
  unfold Position.update Position.update_pnl Position.update_last_price
  split <;> rfl

/-- `Position.update` does not change the cost basis. -/
@[simp] theorem Position.update_cost_eq (p : Position) (price : Rat) :
    (p.update price).cost = p.cost := by
  unfold Position.update Position.update_pnl Position.update_last_price
  split <;> rfl

/-- `Position.update` does not change the accumulated commission. -/
@[simp] theorem Position.update_commission_eq (p : Position) (price : Rat) :
    (p.update price).commission = p.commission := by
  unfold Position.update Position.update_pnl Position.update_last_price
  split <;> rfl

/-! ### Claims -/

/-- Claim C1, refuted by evaluating the code.  The margin branches run
after the position update, so a fill that opens a position DECREASES
`margin` by the cost over leverage, and a fill that removes the last live
position leaves `margin` positive instead of 0: after `fillOpen` the
margin is -10200 while the sum of average fill price times units over
live positions over leverage is 10200; after `fillClose` removes the last
live position (a call that returns normally) the margin is 300, not 0. -/
theorem margin_inverted_on_fill :
    broker1.margin = -10200
    ∧ ((broker1.p_manager.positions.map
        (fun sp => sp.2.fill_price * sp.2.units)).sum) / broker1.leverage
      = 10200
    ∧ broker1.margin
      ≠ ((broker1.p_manager.positions.map
          (fun sp => sp.2.fill_price * sp.2.units)).sum) / broker1.leverage
    ∧ (broker1.update_account_from_fill fillClose).2 = true
    ∧ broker2.p_manager.positions = []
    ∧ broker2.margin = 300
    ∧ broker2.margin ≠ 0 := by
  norm_num [broker2, broker1, broker0, fillOpen, fillClose, SimBroker.init,
    SimBroker.update_account_from_fill, SimBroker.update_margin_from_fill,
    SimBroker.update_balance, PositionManager.update_position_from_fill,
    PositionManager.open_position, PositionManager.close_position,
    PositionManager.init, Position.init, Position.update,
    Position.update_pnl, Position.update_last_price,
    Position.update_close_time, Position.get_cost, posLookup, posSet,
    posErase]

/-- Claim C2, refuted by evaluating the code.  The closing fill
`fillClose` removes the AAPL position (its call returns normally) yet the
balance stays 100000 because the buggy margin went UP on the close; the
opening fill `fillOpen2` creates a new position yet the balance jumps by
the pnl of the old history entry (299) because the buggy margin went DOWN
on the open. -/
theorem balance_realization_inverted :
    (broker1.update_account_from_fill fillClose).2 = true
    ∧ (posLookup broker1.p_manager.positions "AAPL").isSome = true
    ∧ posLookup broker2.p_manager.positions "AAPL" = none
    ∧ broker2.p_manager.history.map Position.pnl = [299]
    ∧ broker2.margin > broker1.margin
    ∧ broker2.balance = broker1.balance
    ∧ (broker2.update_account_from_fill fillOpen2).2 = true
    ∧ (posLookup broker3.p_manager.positions "AAPL").isSome = true
    ∧ broker3.p_manager.history = broker2.p_manager.history
    ∧ broker3.margin < broker2.margin
    ∧ broker3.balance = broker2.balance + 299
    ∧ broker3.balance ≠ broker2.balance := by
  norm_num [broker3, broker2, broker1, broker0, fillOpen, fillClose,
    fillOpen2, SimBroker.init, SimBroker.update_account_from_fill,
    SimBroker.update_margin_from_fill, SimBroker.update_balance,
    PositionManager.update_position_from_fill,
    PositionManager.open_position, PositionManager.close_position,
    PositionManager.init, Position.init, Position.update,
    Position.update_pnl, Position.update_last_price,
    Position.update_close_time, Position.get_cost, posLookup, posSet,
    posErase]

/-- Claim C3, refuted by evaluating the code.  `update_account_from_price`
raises `AttributeError` (line 115 calls the misspelled
`get_totat_pnl`), so equity is never recomputed: with one live AAPL
position marked to 106.0 the total pnl is 399.5, yet the equity is still
100000 instead of balance plus total pnl. -/
theorem equity_not_recomputed :
    (broker1.update_account_from_price dh106).2 = false
    ∧ (broker1.update_account_from_price dh106).1.equity = 100000
    ∧ (broker1.update_account_from_price dh106).1.balance
        + (broker1.update_account_from_price dh106).1.p_manager.get_total_pnl
      = 100000 + 799/2
    ∧ (broker1.update_account_from_price dh106).1.equity
      ≠ (broker1.update_account_from_price dh106).1.balance
        + (broker1.update_account_from_price dh106).1.p_manager.get_total_pnl
    := by
  norm_num [broker1, broker0, fillOpen, dh106, SimBroker.init,
    SimBroker.update_account_from_fill, SimBroker.update_margin_from_fill,
    SimBroker.update_balance, SimBroker.update_account_from_price,
    SimBroker.update_positions_from_price,
    PositionManager.update_position_from_fill,
    PositionManager.open_position, PositionManager.init,
    PositionManager.get_total_pnl, Position.init, Position.update,
    Position.update_pnl, Position.update_last_price, Position.get_cost,
    posLookup, posSet, posErase]

/-- Claim C4, refuted at a concrete reachable state: after the closing
fill (a public call that returns normally) the free margin is still
100000 while equity minus margin is 99700. -/
theorem free_margin_invariant_fails :
    (broker1.update_account_from_fill fillClose).2 = true
    ∧ broker2.free_margin = 100000
    ∧ broker2.equity - broker2.margin = 99700
    ∧ broker2.free_margin ≠ broker2.equity - broker2.margin := by
  norm_num [broker2, broker1, broker0, fillOpen, fillClose, SimBroker.init,
    SimBroker.update_account_from_fill, SimBroker.update_margin_from_fill,
    SimBroker.update_balance, PositionManager.update_position_from_fill,
    PositionManager.open_position, PositionManager.close_position,
    PositionManager.init, Position.init, Position.update,
    Position.update_pnl, Position.update_last_price,
    Position.update_close_time, Position.get_cost, posLookup, posSet,
    posErase]

/-- Claim C4 as amended: `buy`, `sell`, `close` and `execute_order` leave
the four ledger fields untouched, so each preserves
`free_margin = equity - margin`; `update_account_from_fill` can break the
equality. -/
theorem order_ops_preserve_free_margin_invariant (b : SimBroker)
    (d : DataHandler) (s : String) (u : Rat) (o : OrderEvent)
    (h : b.free_margin = b.equity - b.margin) :
    ((b.buy s u).free_margin = (b.buy s u).equity - (b.buy s u).margin)
    ∧ ((b.sell s u).free_margin = (b.sell s u).equity - (b.sell s u).margin)
    ∧ ((b.close s u).1.free_margin
        = (b.close s u).1.equity - (b.close s u).1.margin)
    ∧ ((b.execute_order d o).free_margin
        = (b.execute_order d o).equity - (b.execute_order d o).margin) := by
  have hclose : (b.close s u).1.free_margin
      = (b.close s u).1.equity - (b.close s u).1.margin := by
    cases hp : posLookup b.p_manager.positions s with
    | none => simpa [SimBroker.close, hp] using h
    | some p =>
        by_cases hs : p.side = "BUY" <;>
          simpa [SimBroker.close, hp, hs, SimBroker.buy, SimBroker.sell,
            SimBroker.create_order] using h
  exact ⟨h, h, hclose, h⟩

/-- Claim C4 amended-theorem witness: the initial broker satisfies the
invariant and `close` on it preserves it. -/
theorem order_ops_preserve_free_margin_invariant_witness :
    (broker0.free_margin = broker0.equity - broker0.margin)
    ∧ ((broker0.close "AAPL" 100).1.free_margin
        = (broker0.close "AAPL" 100).1.equity
          - (broker0.close "AAPL" 100).1.margin) :=
  ⟨by simp [broker0, SimBroker.init],
    (order_ops_preserve_free_margin_invariant broker0 dh106 "AAPL" 100
      ordAapl (by simp [broker0, SimBroker.init])).2.2.1⟩

/-- Claim C5, refuted by evaluating the code.  A same-side fill (BUY 50 at
160.0 against a live BUY 100 at 150.0) does not merge: the source closes
the whole position, leaving no live position (instead of one with 150
units at the weighted average) and a 100-unit history record. -/
theorem same_side_fill_closes_position :
    posLookup pmAapl.positions "AAPL" = some posAapl
    ∧ fillB160.side = posAapl.side
    ∧ (pmAapl.update_position_from_fill fillB160).positions = []
    ∧ posLookup (pmAapl.update_position_from_fill fillB160).positions "AAPL"
      = none
    ∧ (pmAapl.update_position_from_fill fillB160).history.map Position.units
      = [100] := by
  norm_num [pmAapl, posAapl, fillB150, fillB160,
    PositionManager.update_position_from_fill,
    PositionManager.open_position, PositionManager.close_position,
    PositionManager.init, Position.init, Position.update,
    Position.update_pnl, Position.update_last_price,
    Position.update_close_time, posLookup, posSet, posErase]

/-- Claim C6, refuted by evaluating the code.  An opposite-side fill with
fewer units (SELL 50 at 160.0 against a live BUY 100 at 150.0, commission
0.5 each leg) does not partially close: the source closes the whole
100-unit position (history record with units 100 and pnl 999.0) and keeps
nothing live, instead of leaving 50 units live and a 50-unit slice with
pnl 499.5. -/
theorem opposite_side_small_fill_closes_fully :
    posLookup pmAapl.positions "AAPL" = some posAapl
    ∧ fillS160.side ≠ posAapl.side
    ∧ fillS160.units < posAapl.units
    ∧ (pmAapl.update_position_from_fill fillS160).positions = []
    ∧ (pmAapl.update_position_from_fill fillS160).history.map Position.units
      = [100]
    ∧ (pmAapl.update_position_from_fill fillS160).history.map Position.pnl
      = [999] := by
  norm_num [pmAapl, posAapl, fillB150, fillS160,
    PositionManager.update_position_from_fill,
    PositionManager.open_position, PositionManager.close_position,
    PositionManager.init, Position.init, Position.update,
    Position.update_pnl, Position.update_last_price,
    Position.update_close_time, posLookup, posSet, posErase]
  decide

/-- Claim C7 (on the spec-modelled deferred-execution machine): under the
NEXT policy an order placed at bar `n` produces no fill and is held as
PENDING; `check_pending_orders` at bar `n + 1` empties the pending set and
every fill it produces is at bar `n + 1`'s OPEN price with the order
marked FILLED. -/
theorem next_bar_deferred_execution (b : SpecExecBroker) (bars : BarData)
    (n : Nat) (o : OrderEvent) (h : b.exec_bar = "NEXT") :
    (b.execute_order bars n o).filled = b.filled
    ∧ (b.execute_order bars n o).pending
      = b.pending ++ [{ o with status := "PENDING" }]
    ∧ ((b.execute_order bars n o).check_pending_orders bars (n + 1)).pending
      = []
    ∧ ∀ x ∈ (((b.execute_order bars n o).check_pending_orders bars
          (n + 1)).filled).drop b.filled.length,
        x.1.status = "FILLED"
        ∧ x.2.fill_price = bars.open_price (n + 1) x.2.symbol
        ∧ x.2.timeindex = n + 1 := by
  refine ⟨by simp [SpecExecBroker.execute_order, h],
    by simp [SpecExecBroker.execute_order, h],
    by simp [SpecExecBroker.execute_order, SpecExecBroker.check_pending_orders, h],
    ?_⟩
  intro x hx
  simp only [SpecExecBroker.execute_order, h, if_pos,
    SpecExecBroker.check_pending_orders, List.drop_left] at hx
  rcases List.mem_map.mp hx with ⟨o1, _, rfl⟩
  exact ⟨rfl, rfl, rfl⟩

/-- Claim C7 witness: on the concrete NEXT-policy broker, placing
`ordAapl` at bar 0 emits no fill and holds it as PENDING. -/
theorem next_bar_deferred_execution_witness :
    (specB.execute_order bars0 0 ordAapl).filled = specB.filled
    ∧ (specB.execute_order bars0 0 ordAapl).pending
      = specB.pending ++ [{ ordAapl with status := "PENDING" }] :=
  ⟨(next_bar_deferred_execution specB bars0 0 ordAapl (by decide)).1,
    (next_bar_deferred_execution specB bars0 0 ordAapl (by decide)).2.1⟩

/-- Claim C8: closing a symbol with no live position returns the broker
state completely unchanged (ledger, positions, history and event queue)
and only reports the diagnostic. -/
theorem close_missing_position_noop (b : SimBroker) (s : String)
    (u : Rat) (h : posLookup b.p_manager.positions s = none) :
    b.close s u = (b, true) := by
  simp [SimBroker.close, h]

/-- Claim C8 witness: closing MSFT on the fresh broker is a no-op with a
diagnostic. -/
theorem close_missing_position_noop_witness :
    posLookup broker0.p_manager.positions "MSFT" = none
    ∧ broker0.close "MSFT" 100 = (broker0, true) :=
  ⟨by rfl, close_missing_position_noop broker0 "MSFT" 100 (by rfl)⟩

/-- Claim C9, refuted at a concrete input: `update_pnl` on a symbol with
no live position is not a no-op; it raises `KeyError` (modelled by
`none`). -/
theorem update_pnl_missing_symbol_errors :
    PositionManager.update_pnl PositionManager.init "AAPL" 10 = none
    ∧ PositionManager.update_pnl PositionManager.init "AAPL" 10
      ≠ some PositionManager.init := by
  refine ⟨rfl, ?_⟩
  intro hcontra
  simp [PositionManager.update_pnl, PositionManager.init,
    posLookup] at hcontra

/-- Claim C9 as amended: `update_pnl` forwards to the live position when
one exists (marking it to the price in place) and raises `KeyError`
(modelled by `none`) when none exists. -/
theorem update_pnl_lookup_behavior (m : PositionManager) (s : String)
    (price : Rat) :
    (posLookup m.positions s = none → m.update_pnl s price = none)
    ∧ (∀ p : Position, posLookup m.positions s = some p →
        m.update_pnl s price
          = some { m with
              positions := posSet m.positions s (p.update price) }) := by
  constructor
  · intro h
    simp [PositionManager.update_pnl, h]
  · intro p h
    simp [PositionManager.update_pnl, h]

/-- Claim C9 amended-theorem witness: on the manager holding AAPL,
`update_pnl` marks the AAPL position to 160.0. -/
theorem update_pnl_lookup_behavior_witness :
    posLookup pmAapl.positions "AAPL" = some posAapl
    ∧ pmAapl.update_pnl "AAPL" 160
      = some { pmAapl with
          positions := posSet pmAapl.positions "AAPL" (posAapl.update 160) } :=
  ⟨by rfl,
    (update_pnl_lookup_behavior pmAapl "AAPL" 160).2 posAapl (by rfl)⟩

/-- Claim C10: `update_account_from_price` never changes the balance or
the margin field (it errors in the equity step, so in this source even
equity and the event queue are untouched), and each live position keeps
its symbol, units, average fill price, side, commission and cost - only
`last_price` and `pnl` can change. -/
theorem price_update_preserves_balance_and_margin (b : SimBroker)
    (d : DataHandler) :
    (b.update_account_from_price d).1.balance = b.balance
    ∧ (b.update_account_from_price d).1.margin = b.margin
    ∧ (b.update_account_from_price d).1.equity = b.equity
    ∧ (b.update_account_from_price d).1.free_margin = b.free_margin
    ∧ (b.update_account_from_price d).1.events = b.events
    ∧ (b.update_account_from_price d).1.p_manager.history
      = b.p_manager.history
    ∧ ((b.update_account_from_price d).1.p_manager.positions.map
        (fun sp => (sp.1, sp.2.symbol, sp.2.units, sp.2.fill_price,
          sp.2.side, sp.2.commission, sp.2.cost)))
      = (b.p_manager.positions.map
        (fun sp => (sp.1, sp.2.symbol, sp.2.units, sp.2.fill_price,
          sp.2.side, sp.2.commission, sp.2.cost))) := by
  refine ⟨rfl, rfl, rfl, rfl, rfl, rfl, ?_⟩
  simp [SimBroker.update_account_from_price,
    SimBroker.update_positions_from_price, List.map_map, Function.comp]

end MarginTrader
